import Mathlib

/-
  A shallow embedding of the HOS (Hours of Service) trip-planning engine of
  src/backend/api/hos_logic.py.

  Modelling conventions:
  - Machine floats become exact rationals.  Timestamps are rationals measured
    in hours from an arbitrary epoch; datetime.now() becomes an explicit
    parameter, and timedelta(hours = h) becomes addition of h.
  - The haversine distance _calculate_distance involves transcendental
    functions, so it is abstracted as a function parameter
    dist : Location → Location → ℚ wherever the source calls it.  No claim
    depends on its concrete values.
  - The geocoding HTTP lookup is abstracted: the outcome of the network
    request plus JSON parsing is a parameter of type Option (List (ℚ × ℚ)):
    none models any raised exception, some xs the parsed result list.
  - Python lists with in-place append become Lean lists; the for/while loops
    become structural recursion (while loops get an explicit fuel counter
    large enough to cover every iteration, proved adequate below).
-/

namespace HosLogic

/-- Location dataclass of hos_logic.py (lines 16-21). -/
structure Location where
  name : String
  latitude : ℚ
  longitude : ℚ
deriving DecidableEq, Inhabited

/-- RoutePoint dataclass of hos_logic.py (lines 24-33).  The status field is a
free-form string exactly as in the source. -/
structure RoutePoint where
  location : Location
  arrival_time : ℚ
  departure_time : ℚ
  status : String
  miles_from_start : ℚ
  cumulative_driving_hours : ℚ
  cumulative_duty_hours : ℚ
deriving DecidableEq, Inhabited

/-- RouteDetails dataclass of hos_logic.py (lines 36-43). -/
structure RouteDetails where
  total_distance : ℚ
  total_time : ℚ
  fueling_stops : List Location
  duty_schedule : List RoutePoint
  violations : List String
deriving DecidableEq, Inhabited

/-- geocode_location (lines 46-84).  The argument models the outcome of the
HTTP request and JSON parse: none is any raised exception (caught by the
try/except), some xs the parsed list of (lat, lon) results.  An empty result
list and an exception both fall back to the New York default coordinates. -/
def geocode_location (lookup : Option (List (ℚ × ℚ))) : ℚ × ℚ :=
  match lookup with
  | none => (40.7128, -74.0060)
  | some [] => (40.7128, -74.0060)
  | some (p :: _) => (p.1, p.2)

-- FMCSA constants of HOSCalculator (lines 93-102).

def MAX_DRIVING_HOURS : ℚ := 11

def MAX_DUTY_HOURS : ℚ := 14

def MIN_OFF_DUTY_HOURS : ℚ := 10

def BREAK_THRESHOLD : ℚ := 8

def BREAK_DURATION : ℚ := 1/2

def FUELING_INTERVAL : ℚ := 1000

def PICKUP_TIME : ℚ := 1

def DROPOFF_TIME : ℚ := 1

def MAX_70_HOUR_WINDOW : ℚ := 70

/-- _parse_location (lines 162-182): geocode the string and wrap it in a
Location.  The geocoder (network call composed with geocode_location) is the
function parameter geo; the per-call cache is semantically transparent because
geo is a pure function here. -/
def parse_location (geo : String → ℚ × ℚ) (location_str : String) : Location :=
  { name := location_str
    latitude := (geo location_str).1
    longitude := (geo location_str).2 }

/-- _calculate_drive_time (lines 420-425): distance / 55 mph. -/
def calculate_drive_time (distance : ℚ) : ℚ :=
  distance / 55

/-- _interpolate_location (lines 231-241).  The two-decimal float formatting
of the synthesized name is abstracted by printing the exact rationals. -/
def interpolate_location (start stop : Location) (progress : ℚ) : Location :=
  let lat := start.latitude + (stop.latitude - start.latitude) * progress
  let lon := start.longitude + (stop.longitude - start.longitude) * progress
  { name := "Fuel Stop at " ++ toString lat ++ ", " ++ toString lon
    latitude := lat
    longitude := lon }

/-- One of the two while loops of _calculate_fueling_stops (lines 214-227).
Both loops advance miles_so_far by FUELING_INTERVAL while
miles_so_far + FUELING_INTERVAL < total and emit a stop computed from the new
accumulator value; emit abstracts the loop body (the two loops interpolate
with different progress formulas).  The fuel argument bounds the number of
iterations; fueling_loop_eq below shows any large enough fuel gives the same
list, so the embedding agrees with the unbounded while loop. -/
def fueling_loop (emit : ℚ → Location) (total : ℚ) : ℕ → ℚ → List Location
  | 0, _ => []
  | fuel + 1, miles_so_far =>
    if miles_so_far + FUELING_INTERVAL < total then
      emit (miles_so_far + FUELING_INTERVAL) ::
        fueling_loop emit total fuel (miles_so_far + FUELING_INTERVAL)
    else []

/-- Iteration bound for fueling_loop: at least the number of loop entries. -/
def fuel_bound (leg : ℚ) : ℕ :=
  (⌈leg / FUELING_INTERVAL⌉).toNat

/-- _calculate_fueling_stops (lines 203-229).  The two distances are computed
from the abstracted haversine dist, exactly as the source recomputes them.
The first loop starts its accumulator at 0 and interpolates along
current → pickup; the second starts at distance_to_pickup, compares against
the total distance and interpolates along pickup → dropoff with progress
(miles_so_far - distance_to_pickup) / distance_pickup_to_dropoff. -/
def calculate_fueling_stops (dist : Location → Location → ℚ)
    (current pickup dropoff : Location) : List Location :=
  let distance_to_pickup := dist current pickup
  let distance_pickup_to_dropoff := dist pickup dropoff
  fueling_loop
    (fun m => interpolate_location current pickup (m / distance_to_pickup))
    distance_to_pickup (fuel_bound distance_to_pickup) 0
  ++
  fueling_loop
    (fun m => interpolate_location pickup dropoff
      ((m - distance_to_pickup) / distance_pickup_to_dropoff))
    (distance_to_pickup + distance_pickup_to_dropoff)
    (fuel_bound distance_pickup_to_dropoff) distance_to_pickup

/-- The mutable state of the fuel-stop for loop of _add_driving_segment
(lines 379-401): emitted points, current_time, current_miles,
current_driving, current_duty. -/
abbrev DriveState := List RoutePoint × ℚ × ℚ × ℚ × ℚ

/-- The for loop over fueling_stops of _add_driving_segment (lines 379-401),
as a left-to-right traversal threading the mutable state.  A stop is handled
only when current_miles < distance; otherwise the iteration does nothing. -/
def add_driving_loop (dist : Location → Location → ℚ) (start : Location)
    (distance : ℚ) : List Location → DriveState → DriveState
  | [], st => st
  | stop :: rest, (points, current_time, current_miles, current_driving, current_duty) =>
    if current_miles < distance then
      let stop_distance := dist start stop
      let time_to_stop := calculate_drive_time stop_distance
      let arrival_time := current_time + time_to_stop
      let departure_time := arrival_time + 1/2
      add_driving_loop dist start distance rest
        (points ++ [⟨stop, arrival_time, departure_time, "On Duty",
            current_miles + stop_distance,
            current_driving + time_to_stop,
            current_duty + time_to_stop + 1/2⟩],
          departure_time,
          current_miles + stop_distance,
          current_driving + time_to_stop,
          current_duty + time_to_stop + 1/2)
    else
      add_driving_loop dist start distance rest
        (points, current_time, current_miles, current_driving, current_duty)

/-- Lines 379-418 of _add_driving_segment: the part after the break check.
It runs the fuel-stop loop from current_miles = 0 and then appends the final
Driving arrival at the leg endpoint (lines 403-416). -/
def add_driving_rest (dist : Location → Location → ℚ) (start stop : Location)
    (distance start_time current_driving current_duty : ℚ)
    (fueling_stops : List Location) : List RoutePoint :=
  match add_driving_loop dist start distance fueling_stops
      ([], start_time, 0, current_driving, current_duty) with
  | (points, current_time, current_miles, driving, duty) =>
    let remaining_distance := distance - current_miles
    let remaining_time := calculate_drive_time remaining_distance
    let arrival_time := current_time + remaining_time
    points ++ [⟨stop, arrival_time, arrival_time, "Driving", distance,
      driving + remaining_time, duty + remaining_time⟩]

/-- _add_driving_segment (lines 339-418).  If the carried-in cumulative
driving hours have reached BREAK_THRESHOLD, a half-hour Off Duty break at the
leg start is emitted first (lines 359-377), the driving counter is reset to
zero and the break duration is added to the duty counter; then the fuel-stop
loop and the final Driving arrival follow. -/
def add_driving_segment (dist : Location → Location → ℚ) (start stop : Location)
    (distance start_time cumulative_driving cumulative_duty : ℚ)
    (fueling_stops : List Location) : List RoutePoint :=
  if BREAK_THRESHOLD ≤ cumulative_driving then
    ⟨start, start_time, start_time + BREAK_DURATION, "Off Duty", 0,
      cumulative_driving, cumulative_duty⟩ ::
    add_driving_rest dist start stop distance (start_time + BREAK_DURATION)
      0 (cumulative_duty + BREAK_DURATION) fueling_stops
  else
    add_driving_rest dist start stop distance start_time
      cumulative_driving cumulative_duty fueling_stops

/-- Lines 253-320 of _generate_duty_schedule: everything before the final
mandatory-rest check.  The let-shadowing mirrors the sequential reassignments
of the source; note that the leg-2 call receives the thrice-shadowed
departure_time (the dropoff departure, line 302 after the reassignment on
line 299) and an empty fuel-stop list, exactly as in the source. -/
def duty_schedule_base (dist : Location → Location → ℚ)
    (current pickup dropoff : Location)
    (distance_to_pickup distance_pickup_to_dropoff : ℚ)
    (fueling_stops : List Location) (now current_cycle_used : ℚ) :
    List RoutePoint :=
  let current_time := now
  let cumulative_driving := current_cycle_used
  let cumulative_duty := current_cycle_used
  let startPoint : RoutePoint :=
    ⟨current, current_time, current_time, "Off Duty", 0,
      cumulative_driving, cumulative_duty⟩
  let drive_time := calculate_drive_time distance_to_pickup
  let arrival_time := current_time + drive_time
  let departure_time := arrival_time + PICKUP_TIME
  let leg1 := add_driving_segment dist current pickup distance_to_pickup
    current_time cumulative_driving cumulative_duty fueling_stops
  let cumulative_driving := cumulative_driving + drive_time
  let cumulative_duty := cumulative_duty + drive_time + PICKUP_TIME
  let pickupPoint : RoutePoint :=
    ⟨pickup, arrival_time, departure_time, "On Duty", distance_to_pickup,
      cumulative_driving, cumulative_duty⟩
  let drive_time := calculate_drive_time distance_pickup_to_dropoff
  let arrival_time := departure_time + drive_time
  let departure_time := arrival_time + DROPOFF_TIME
  let leg2 := add_driving_segment dist pickup dropoff
    distance_pickup_to_dropoff departure_time
    cumulative_driving cumulative_duty []
  let cumulative_driving := cumulative_driving + drive_time
  let cumulative_duty := cumulative_duty + drive_time + DROPOFF_TIME
  let dropoffPoint : RoutePoint :=
    ⟨dropoff, arrival_time, departure_time, "On Duty",
      distance_to_pickup + distance_pickup_to_dropoff,
      cumulative_driving, cumulative_duty⟩
  startPoint :: leg1 ++ [pickupPoint] ++ leg2 ++ [dropoffPoint]

/-- _generate_duty_schedule (lines 243-337): the base schedule followed by the
mandatory-rest check of lines 322-335.  The flat sums below are exactly the
values the shadowed cumulative counters and departure_time hold after the
dropoff point is appended. -/
def generate_duty_schedule (dist : Location → Location → ℚ)
    (current pickup dropoff : Location)
    (distance_to_pickup distance_pickup_to_dropoff : ℚ)
    (fueling_stops : List Location) (now current_cycle_used : ℚ) :
    List RoutePoint :=
  let schedule := duty_schedule_base dist current pickup dropoff
    distance_to_pickup distance_pickup_to_dropoff fueling_stops now
    current_cycle_used
  let cumulative_driving := current_cycle_used
    + calculate_drive_time distance_to_pickup
    + calculate_drive_time distance_pickup_to_dropoff
  let cumulative_duty := current_cycle_used
    + calculate_drive_time distance_to_pickup + PICKUP_TIME
    + calculate_drive_time distance_pickup_to_dropoff + DROPOFF_TIME
  let departure_time := now
    + calculate_drive_time distance_to_pickup + PICKUP_TIME
    + calculate_drive_time distance_pickup_to_dropoff + DROPOFF_TIME
  if MAX_DRIVING_HOURS ≤ cumulative_driving ∨ MAX_DUTY_HOURS ≤ cumulative_duty then
    schedule ++
      [⟨dropoff, departure_time, departure_time + MIN_OFF_DUTY_HOURS,
        "Off Duty", distance_to_pickup + distance_pickup_to_dropoff, 0, 0⟩]
  else
    schedule

/-- _check_violations (lines 438-457): one pass over the schedule, appending
one message per strictly exceeded threshold at each point, in order. -/
def check_violations (schedule : List RoutePoint) : List String :=
  schedule.foldl (fun violations point =>
    let violations :=
      if MAX_DRIVING_HOURS < point.cumulative_driving_hours then
        violations ++
          ["Violation: Exceeded 11-hour driving limit at " ++ point.location.name]
      else violations
    let violations :=
      if MAX_DUTY_HOURS < point.cumulative_duty_hours then
        violations ++
          ["Violation: Exceeded 14-hour duty limit at " ++ point.location.name]
      else violations
    let violations :=
      if MAX_70_HOUR_WINDOW < point.cumulative_duty_hours then
        violations ++
          ["Violation: Exceeded 70-hour/8-day limit at " ++ point.location.name]
      else violations
    violations) []

/-- _calculate_total_time (lines 427-436): last departure minus first
arrival, 0 for an empty schedule. -/
def calculate_total_time (schedule : List RoutePoint) : ℚ :=
  match schedule.head?, schedule.getLast? with
  | some first, some last => last.departure_time - first.arrival_time
  | _, _ => 0

/-- calculate_route (lines 109-160): resolve the three waypoints, compute the
two leg distances, the fuel stops, the duty schedule, the violations and the
total time. -/
def calculate_route (dist : Location → Location → ℚ) (geo : String → ℚ × ℚ)
    (current_location pickup_location dropoff_location : String)
    (current_cycle_used now : ℚ) : RouteDetails :=
  let current_loc := parse_location geo current_location
  let pickup_loc := parse_location geo pickup_location
  let dropoff_loc := parse_location geo dropoff_location
  let distance_to_pickup := dist current_loc pickup_loc
  let distance_pickup_to_dropoff := dist pickup_loc dropoff_loc
  let total_distance := distance_to_pickup + distance_pickup_to_dropoff
  let fueling_stops := calculate_fueling_stops dist current_loc pickup_loc dropoff_loc
  let duty_schedule := generate_duty_schedule dist current_loc pickup_loc
    dropoff_loc distance_to_pickup distance_pickup_to_dropoff fueling_stops
    now current_cycle_used
  let violations := check_violations duty_schedule
  let total_time := calculate_total_time duty_schedule
  { total_distance := total_distance
    total_time := total_time
    fueling_stops := fueling_stops
    duty_schedule := duty_schedule
    violations := violations }

/-- Number of loop iterations fueling_loop performs from accumulator m:
the number of times the accumulator can be advanced by FUELING_INTERVAL while
staying strictly below total. -/
def fuel_steps (total m : ℚ) : ℕ :=
  (⌈(total - m) / FUELING_INTERVAL⌉ - 1).toNat

/-- The per-leg stop count in the words of the spec (section 4.3): the number
of integers k ≥ 1 with k * 1000 strictly below the leg length; used to compare
the while loops of _calculate_fueling_stops against the spec. -/
def leg_stop_count (leg : ℚ) : ℕ :=
  (⌈leg / FUELING_INTERVAL⌉ - 1).toNat

/-- The violation messages a single segment yields, in the words of the spec
(section 4.5): one message per strictly exceeded threshold, in the fixed
order 11-hour driving, 14-hour duty, 70-hour duty.  check_violations is
compared against the concatenation of this function over the schedule. -/
def seg_violations (point : RoutePoint) : List String :=
  (if MAX_DRIVING_HOURS < point.cumulative_driving_hours then
    ["Violation: Exceeded 11-hour driving limit at " ++ point.location.name]
  else []) ++
  (if MAX_DUTY_HOURS < point.cumulative_duty_hours then
    ["Violation: Exceeded 14-hour duty limit at " ++ point.location.name]
  else []) ++
  (if MAX_70_HOUR_WINDOW < point.cumulative_duty_hours then
    ["Violation: Exceeded 70-hour/8-day limit at " ++ point.location.name]
  else [])

/-- A concrete distance function for evaluating the model: every leg is 55
miles (one hour of driving). -/
def exDist : Location → Location → ℚ := fun _ _ => 55

/-- A concrete distance function with a 110-mile first leg and 55-mile later
legs. -/
def exDist2 : Location → Location → ℚ :=
  fun a _ => if a.name = "A" then 110 else 55

/-- A concrete geocoder for evaluating the model. -/
def exGeo : String → ℚ × ℚ := fun _ => (0, 0)

/-! ### Fuel-stop planner lemmas -/

theorem fueling_interval_pos : (0:ℚ) < FUELING_INTERVAL := by
  norm_num [FUELING_INTERVAL]

/-- With enough fuel, the embedded while loop produces exactly one stop per
iteration count, each at accumulator value m + (k+1) * FUELING_INTERVAL. -/
theorem fueling_loop_eq (emit : ℚ → Location) (total : ℚ) :
    ∀ (fuel : ℕ) (m : ℚ), fuel_steps total m ≤ fuel →
      fueling_loop emit total fuel m
        = (List.range (fuel_steps total m)).map
            (fun (k : ℕ) => emit (m + ((k : ℚ) + 1) * FUELING_INTERVAL)) := by
  intro fuel
  induction fuel with
  | zero =>
    intro m h
    have h0 : fuel_steps total m = 0 := Nat.le_zero.mp h
    simp [fueling_loop, h0]
  | succ fuel ih =>
    intro m h
    by_cases hc : m + FUELING_INTERVAL < total
    · have hgt : (1:ℤ) < ⌈(total - m) / FUELING_INTERVAL⌉ := by
        rw [Int.lt_ceil]
        push_cast
        rw [lt_div_iff₀ fueling_interval_pos]
        linarith
      have hne : FUELING_INTERVAL ≠ 0 := ne_of_gt fueling_interval_pos
      have hshift : (total - (m + FUELING_INTERVAL)) / FUELING_INTERVAL
          = (total - m) / FUELING_INTERVAL - 1 := by
        field_simp
        ring
      have hstep : fuel_steps total m
          = fuel_steps total (m + FUELING_INTERVAL) + 1 := by
        unfold fuel_steps
        rw [hshift, Int.ceil_sub_one]
        omega
      have hfuel : fuel_steps total (m + FUELING_INTERVAL) ≤ fuel := by omega
      rw [show fueling_loop emit total (fuel + 1) m
            = emit (m + FUELING_INTERVAL) ::
                fueling_loop emit total fuel (m + FUELING_INTERVAL) by
            simp [fueling_loop, hc],
        ih _ hfuel, hstep, List.range_succ_eq_map, List.map_cons, List.map_map]
      congr 1
      · congr 1
        push_cast
        ring
      · refine List.map_congr_left fun k _ => ?_
        simp only [Function.comp]
        congr 1
        push_cast
        ring
    · have h0 : fuel_steps total m = 0 := by
        unfold fuel_steps
        have hle : (total - m) / FUELING_INTERVAL ≤ 1 := by
          rw [div_le_one fueling_interval_pos]
          linarith
        have hceil : ⌈(total - m) / FUELING_INTERVAL⌉ ≤ 1 := by
          rw [Int.ceil_le]
          push_cast
          exact hle
        omega
      simp [fueling_loop, hc, h0]

theorem fuel_steps_zero (L : ℚ) : fuel_steps L 0 = leg_stop_count L := by
  simp [fuel_steps, leg_stop_count]

theorem fuel_steps_shift (d1 d2 : ℚ) :
    fuel_steps (d1 + d2) d1 = leg_stop_count d2 := by
  simp [fuel_steps, leg_stop_count, add_sub_cancel_left]

theorem leg_stop_count_le_bound (L : ℚ) : leg_stop_count L ≤ fuel_bound L :=
  Int.toNat_le_toNat (by omega)

/-! ### Driving-segment lemmas -/

/-- The fuel-stop loop only appends points; every appended point is an
On Duty fuel stop, the driving counter grows by exactly the accumulated
mileage over 55, and the duty counter additionally grows by half an hour per
appended point. -/
theorem add_driving_loop_decomp (dist : Location → Location → ℚ)
    (start : Location) (distance : ℚ) :
    ∀ (stops : List Location) (points : List RoutePoint) (t m cd cdy : ℚ),
      ∃ (new : List RoutePoint) (t' m' : ℚ),
        add_driving_loop dist start distance stops (points, t, m, cd, cdy)
          = (points ++ new, t', m',
              cd + (m' - m) / 55, cdy + (m' - m) / 55 + (new.length : ℚ) / 2)
        ∧ ∀ p ∈ new, p.status = "On Duty" := by
  intro stops
  induction stops with
  | nil =>
    intro points t m cd cdy
    exact ⟨[], t, m, by simp [add_driving_loop], by simp⟩
  | cons stop rest ih =>
    intro points t m cd cdy
    by_cases hc : m < distance
    · obtain ⟨new, t', m', heq, hst⟩ :=
        ih (points ++ [⟨stop, t + calculate_drive_time (dist start stop),
            t + calculate_drive_time (dist start stop) + 1/2, "On Duty",
            m + dist start stop,
            cd + calculate_drive_time (dist start stop),
            cdy + calculate_drive_time (dist start stop) + 1/2⟩])
          (t + calculate_drive_time (dist start stop) + 1/2)
          (m + dist start stop)
          (cd + calculate_drive_time (dist start stop))
          (cdy + calculate_drive_time (dist start stop) + 1/2)
      refine ⟨⟨stop, t + calculate_drive_time (dist start stop),
          t + calculate_drive_time (dist start stop) + 1/2, "On Duty",
          m + dist start stop,
          cd + calculate_drive_time (dist start stop),
          cdy + calculate_drive_time (dist start stop) + 1/2⟩ :: new,
        t', m', ?_, ?_⟩
      · rw [show add_driving_loop dist start distance (stop :: rest)
              (points, t, m, cd, cdy)
            = add_driving_loop dist start distance rest
              (points ++ [⟨stop, t + calculate_drive_time (dist start stop),
                  t + calculate_drive_time (dist start stop) + 1/2, "On Duty",
                  m + dist start stop,
                  cd + calculate_drive_time (dist start stop),
                  cdy + calculate_drive_time (dist start stop) + 1/2⟩],
                t + calculate_drive_time (dist start stop) + 1/2,
                m + dist start stop,
                cd + calculate_drive_time (dist start stop),
                cdy + calculate_drive_time (dist start stop) + 1/2) by
            simp [add_driving_loop, hc],
          heq]
        simp only [Prod.mk.injEq, List.append_assoc, List.singleton_append,
          List.length_cons, eq_self_iff_true, true_and, and_true]
        constructor
        · unfold calculate_drive_time
          ring
        · unfold calculate_drive_time
          push_cast
          ring
      · intro p hp
        rcases List.mem_cons.mp hp with h1 | h2
        · rw [h1]
        · exact hst p h2
    · obtain ⟨new, t', m', heq, hst⟩ := ih points t m cd cdy
      refine ⟨new, t', m', ?_, hst⟩
      rw [show add_driving_loop dist start distance (stop :: rest)
            (points, t, m, cd, cdy)
          = add_driving_loop dist start distance rest (points, t, m, cd, cdy) by
          simp [add_driving_loop, hc]]
      exact heq

/-- _add_driving_segment after the break check: some On Duty fuel points
followed by exactly one terminal Driving point whose driving counter is the
carried one plus the whole leg drive time, and whose duty counter additionally
carries half an hour per fuel point. -/
theorem add_driving_rest_decomp (dist : Location → Location → ℚ)
    (start stop : Location) (distance t cd cdy : ℚ) (stops : List Location) :
    ∃ (new : List RoutePoint) (T : ℚ),
      add_driving_rest dist start stop distance t cd cdy stops
        = new ++ [⟨stop, T, T, "Driving", distance,
            cd + distance / 55, cdy + distance / 55 + (new.length : ℚ) / 2⟩]
      ∧ ∀ p ∈ new, p.status = "On Duty" := by
  obtain ⟨new, t', m', heq, hst⟩ :=
    add_driving_loop_decomp dist start distance stops [] t 0 cd cdy
  refine ⟨new, t' + calculate_drive_time (distance - m'), ?_, hst⟩
  unfold add_driving_rest
  rw [heq]
  simp only [List.nil_append, List.append_cancel_left_eq, List.cons.injEq,
    RoutePoint.mk.injEq, eq_self_iff_true, true_and, and_true]
  constructor
  · unfold calculate_drive_time
    ring
  · unfold calculate_drive_time
    ring

theorem add_driving_rest_status (dist : Location → Location → ℚ)
    (start stop : Location) (distance t cd cdy : ℚ) (stops : List Location) :
    ∀ p ∈ add_driving_rest dist start stop distance t cd cdy stops,
      p.status = "On Duty" ∨ p.status = "Driving" := by
  obtain ⟨new, T, heq, hst⟩ :=
    add_driving_rest_decomp dist start stop distance t cd cdy stops
  intro p hp
  rw [heq] at hp
  rcases List.mem_append.mp hp with h1 | h2
  · exact Or.inl (hst p h1)
  · rw [List.mem_singleton.mp h2]
    exact Or.inr rfl

theorem add_driving_segment_status (dist : Location → Location → ℚ)
    (start stop : Location) (distance t cd cdy : ℚ) (stops : List Location) :
    ∀ p ∈ add_driving_segment dist start stop distance t cd cdy stops,
      p.status = "Off Duty" ∨ p.status = "On Duty" ∨ p.status = "Driving" := by
  intro p hp
  unfold add_driving_segment at hp
  split at hp
  · rcases List.mem_cons.mp hp with h1 | h2
    · exact Or.inl (by rw [h1])
    · exact Or.inr (add_driving_rest_status dist start stop distance _ _ _ stops p h2)
  · exact Or.inr (add_driving_rest_status dist start stop distance _ _ _ stops p hp)

/-- With an empty fuel-stop list (as for leg 2), the emitted driving segment
contains no On Duty point at all: only the optional break and the terminal
Driving arrival. -/
theorem add_driving_segment_nil_status (dist : Location → Location → ℚ)
    (start stop : Location) (distance t cd cdy : ℚ) :
    ∀ p ∈ add_driving_segment dist start stop distance t cd cdy [],
      p.status = "Off Duty" ∨ p.status = "Driving" := by
  intro p hp
  unfold add_driving_segment add_driving_rest add_driving_loop at hp
  split at hp
  · rcases List.mem_cons.mp hp with h1 | h2
    · exact Or.inl (by rw [h1])
    · simp only [List.nil_append, List.mem_singleton] at h2
      exact Or.inr (by rw [h2])
  · simp only [List.nil_append, List.mem_singleton] at hp
    exact Or.inr (by rw [hp])

/-- The loop preserves the driving-hours-below-duty-hours invariant, both for
every emitted point and for the final counters. -/
theorem add_driving_loop_le (dist : Location → Location → ℚ)
    (start : Location) (distance : ℚ) :
    ∀ (stops : List Location) (points : List RoutePoint) (t m cd cdy : ℚ),
      (∀ p ∈ points, p.cumulative_driving_hours ≤ p.cumulative_duty_hours) →
      cd ≤ cdy →
      (∀ p ∈ (add_driving_loop dist start distance stops (points, t, m, cd, cdy)).1,
          p.cumulative_driving_hours ≤ p.cumulative_duty_hours)
      ∧ (add_driving_loop dist start distance stops (points, t, m, cd, cdy)).2.2.2.1
          ≤ (add_driving_loop dist start distance stops (points, t, m, cd, cdy)).2.2.2.2 := by
  intro stops
  induction stops with
  | nil =>
    intro points t m cd cdy hpts hle
    exact ⟨by simpa [add_driving_loop] using hpts, by simpa [add_driving_loop] using hle⟩
  | cons stop rest ih =>
    intro points t m cd cdy hpts hle
    by_cases hc : m < distance
    · have hstep := ih
        (points ++ [⟨stop, t + calculate_drive_time (dist start stop),
            t + calculate_drive_time (dist start stop) + 1/2, "On Duty",
            m + dist start stop,
            cd + calculate_drive_time (dist start stop),
            cdy + calculate_drive_time (dist start stop) + 1/2⟩])
        (t + calculate_drive_time (dist start stop) + 1/2)
        (m + dist start stop)
        (cd + calculate_drive_time (dist start stop))
        (cdy + calculate_drive_time (dist start stop) + 1/2)
        (by
          intro p hp
          rcases List.mem_append.mp hp with h1 | h2
          · exact hpts p h1
          · rw [List.mem_singleton.mp h2]
            simpa using by linarith)
        (by linarith)
      rw [show add_driving_loop dist start distance (stop :: rest)
            (points, t, m, cd, cdy)
          = add_driving_loop dist start distance rest
            (points ++ [⟨stop, t + calculate_drive_time (dist start stop),
                t + calculate_drive_time (dist start stop) + 1/2, "On Duty",
                m + dist start stop,
                cd + calculate_drive_time (dist start stop),
                cdy + calculate_drive_time (dist start stop) + 1/2⟩],
              t + calculate_drive_time (dist start stop) + 1/2,
              m + dist start stop,
              cd + calculate_drive_time (dist start stop),
              cdy + calculate_drive_time (dist start stop) + 1/2) by
          simp [add_driving_loop, hc]]
      exact hstep
    · rw [show add_driving_loop dist start distance (stop :: rest)
            (points, t, m, cd, cdy)
          = add_driving_loop dist start distance rest (points, t, m, cd, cdy) by
          simp [add_driving_loop, hc]]
      exact ih points t m cd cdy hpts hle

theorem add_driving_rest_le (dist : Location → Location → ℚ)
    (start stop : Location) (distance t cd cdy : ℚ) (stops : List Location)
    (hle : cd ≤ cdy) :
    ∀ p ∈ add_driving_rest dist start stop distance t cd cdy stops,
      p.cumulative_driving_hours ≤ p.cumulative_duty_hours := by
  obtain ⟨hmem, hfin⟩ :=
    add_driving_loop_le dist start distance stops [] t 0 cd cdy (by simp) hle
  intro p hp
  unfold add_driving_rest at hp
  rcases hloop : add_driving_loop dist start distance stops ([], t, 0, cd, cdy)
    with ⟨points, ct, cm, dr, du⟩
  rw [hloop] at hp hmem
  rw [hloop] at hfin
  simp only at hp hmem hfin
  rcases List.mem_append.mp hp with h1 | h2
  · exact hmem p h1
  · rw [List.mem_singleton.mp h2]
    simp only
    linarith

theorem add_driving_segment_le (dist : Location → Location → ℚ)
    (start stop : Location) (distance t cd cdy : ℚ) (stops : List Location)
    (hle : cd ≤ cdy) :
    ∀ p ∈ add_driving_segment dist start stop distance t cd cdy stops,
      p.cumulative_driving_hours ≤ p.cumulative_duty_hours := by
  intro p hp
  unfold add_driving_segment at hp
  split at hp
  case isTrue h8 =>
    rcases List.mem_cons.mp hp with h1 | h2
    · rw [h1]
      exact hle
    · refine add_driving_rest_le dist start stop distance _ _ _ stops ?_ p h2
      have : BREAK_THRESHOLD ≤ cdy := le_trans h8 hle
      unfold BREAK_THRESHOLD at this
      unfold BREAK_DURATION
      linarith
  case isFalse =>
    exact add_driving_rest_le dist start stop distance _ _ _ stops hle p hp

/-! ### Compliance-checker lemmas -/

theorem check_violations_foldl (s : List RoutePoint) :
    ∀ acc : List String,
      s.foldl (fun violations point =>
        let violations :=
          if MAX_DRIVING_HOURS < point.cumulative_driving_hours then
            violations ++
              ["Violation: Exceeded 11-hour driving limit at " ++ point.location.name]
          else violations
        let violations :=
          if MAX_DUTY_HOURS < point.cumulative_duty_hours then
            violations ++
              ["Violation: Exceeded 14-hour duty limit at " ++ point.location.name]
          else violations
        let violations :=
          if MAX_70_HOUR_WINDOW < point.cumulative_duty_hours then
            violations ++
              ["Violation: Exceeded 70-hour/8-day limit at " ++ point.location.name]
          else violations
        violations) acc
      = acc ++ (s.map seg_violations).flatten := by
  induction s with
  | nil =>
    intro acc
    simp
  | cons point rest ih =>
    intro acc
    rw [List.foldl_cons, ih, List.map_cons, List.flatten_cons]
    have hstep :
        (let violations :=
          if MAX_DRIVING_HOURS < point.cumulative_driving_hours then
            acc ++
              ["Violation: Exceeded 11-hour driving limit at " ++ point.location.name]
          else acc
        let violations :=
          if MAX_DUTY_HOURS < point.cumulative_duty_hours then
            violations ++
              ["Violation: Exceeded 14-hour duty limit at " ++ point.location.name]
          else violations
        let violations :=
          if MAX_70_HOUR_WINDOW < point.cumulative_duty_hours then
            violations ++
              ["Violation: Exceeded 70-hour/8-day limit at " ++ point.location.name]
          else violations
        violations) = acc ++ seg_violations point := by
      simp only [seg_violations]
      by_cases h1 : MAX_DRIVING_HOURS < point.cumulative_driving_hours <;>
        by_cases h2 : MAX_DUTY_HOURS < point.cumulative_duty_hours <;>
          by_cases h3 : MAX_70_HOUR_WINDOW < point.cumulative_duty_hours <;>
            simp [h1, h2, h3]
    rw [hstep, List.append_assoc]

/-- The source checker equals the per-segment spec checker concatenated over
the schedule in order. -/
theorem check_violations_eq (schedule : List RoutePoint) :
    check_violations schedule = (schedule.map seg_violations).flatten := by
  unfold check_violations
  rw [check_violations_foldl]
  simp

theorem mem_check_violations {s : List RoutePoint} {q : RoutePoint}
    (hq : q ∈ s) {msg : String} (hmsg : msg ∈ seg_violations q) :
    msg ∈ check_violations s := by
  rw [check_violations_eq]
  exact List.mem_flatten.mpr ⟨seg_violations q, List.mem_map_of_mem _ hq, hmsg⟩

theorem seg_violations_70 {q : RoutePoint}
    (h : MAX_70_HOUR_WINDOW < q.cumulative_duty_hours) :
    ("Violation: Exceeded 70-hour/8-day limit at " ++ q.location.name)
      ∈ seg_violations q := by
  unfold seg_violations
  refine List.mem_append.mpr (Or.inr ?_)
  rw [if_pos h]
  exact List.mem_singleton.mpr rfl

theorem seg_violations_14 {q : RoutePoint}
    (h : MAX_DUTY_HOURS < q.cumulative_duty_hours) :
    ("Violation: Exceeded 14-hour duty limit at " ++ q.location.name)
      ∈ seg_violations q := by
  unfold seg_violations
  refine List.mem_append.mpr (Or.inl (List.mem_append.mpr (Or.inr ?_)))
  rw [if_pos h]
  exact List.mem_singleton.mpr rfl

theorem fueling_loop_leg1 (emit : ℚ → Location) (L : ℚ) :
    fueling_loop emit L (fuel_bound L) 0
      = (List.range (leg_stop_count L)).map
          (fun (k : ℕ) => emit (0 + ((k : ℚ) + 1) * FUELING_INTERVAL)) := by
  rw [fueling_loop_eq emit L (fuel_bound L) 0
      (by rw [fuel_steps_zero]; exact leg_stop_count_le_bound L),
    fuel_steps_zero]

theorem fueling_loop_leg2 (emit : ℚ → Location) (d1 d2 : ℚ) :
    fueling_loop emit (d1 + d2) (fuel_bound d2) d1
      = (List.range (leg_stop_count d2)).map
          (fun (k : ℕ) => emit (d1 + ((k : ℚ) + 1) * FUELING_INTERVAL)) := by
  rw [fueling_loop_eq emit (d1 + d2) (fuel_bound d2) d1
      (by rw [fuel_steps_shift]; exact leg_stop_count_le_bound d2),
    fuel_steps_shift]

/-! ### Claim theorems -/

/-- C5: the fuel-stop planner places stops independently per leg, restarting
the 1000-mile counter from zero at the leg boundary: the result is, leg by
leg, the list of interpolated stops at fractions (k+1) * 1000 / L for
k < leg_stop_count L, where leg_stop_count L is exactly the number of
integers k ≥ 1 with k * 1000 strictly below L (so a stop exactly at the leg
end is never emitted), and a leg shorter than 1000 miles gets no stop. -/
theorem c5_fuel_stops_per_leg (dist : Location → Location → ℚ)
    (current pickup dropoff : Location) :
    calculate_fueling_stops dist current pickup dropoff
      = (List.range (leg_stop_count (dist current pickup))).map
          (fun (k : ℕ) => interpolate_location current pickup
            (((k : ℚ) + 1) * FUELING_INTERVAL / dist current pickup))
        ++ (List.range (leg_stop_count (dist pickup dropoff))).map
          (fun (k : ℕ) => interpolate_location pickup dropoff
            (((k : ℚ) + 1) * FUELING_INTERVAL / dist pickup dropoff))
      ∧ (∀ (L : ℚ) (k : ℕ), 1 ≤ k →
          ((k : ℚ) * FUELING_INTERVAL < L ↔ k ≤ leg_stop_count L))
      ∧ (∀ L : ℚ, L < FUELING_INTERVAL → leg_stop_count L = 0) := by
  refine ⟨?_, ?_, ?_⟩
  · simp only [calculate_fueling_stops]
    rw [fueling_loop_leg1, fueling_loop_leg2]
    congr 1
    · refine List.map_congr_left fun k _ => ?_
      congr 1
      ring
    · refine List.map_congr_left fun k _ => ?_
      congr 1
      ring
  · intro L k hk
    unfold leg_stop_count
    constructor
    · intro hlt
      have hlt2 : (k : ℤ) < ⌈L / FUELING_INTERVAL⌉ := by
        rw [Int.lt_ceil]
        push_cast
        rw [lt_div_iff₀ fueling_interval_pos]
        exact hlt
      omega
    · intro hle
      have hlt2 : (k : ℤ) < ⌈L / FUELING_INTERVAL⌉ := by omega
      have hcast := Int.lt_ceil.mp hlt2
      push_cast at hcast
      rwa [lt_div_iff₀ fueling_interval_pos] at hcast
  · intro L hL
    unfold leg_stop_count
    have hc : ⌈L / FUELING_INTERVAL⌉ ≤ 1 := by
      rw [Int.ceil_le]
      push_cast
      rw [div_le_one fueling_interval_pos]
      exact le_of_lt hL
    omega

/-- C6: the compliance checker scans each segment independently
(check_violations is the per-segment checker seg_violations concatenated over
the schedule in timeline order, with no de-duplication, one message per
strictly exceeded threshold), and for every schedule containing a segment
with cumulative duty hours 75, the result carries both that segment's 14-hour
message and its 70-hour message. -/
theorem c6_violations_per_segment :
    (∀ schedule : List RoutePoint,
      check_violations schedule = (schedule.map seg_violations).flatten)
    ∧ (∀ (schedule : List RoutePoint) (q : RoutePoint), q ∈ schedule →
        q.cumulative_duty_hours = 75 →
        ("Violation: Exceeded 14-hour duty limit at " ++ q.location.name)
          ∈ check_violations schedule
        ∧ ("Violation: Exceeded 70-hour/8-day limit at " ++ q.location.name)
          ∈ check_violations schedule) := by
  refine ⟨check_violations_eq, fun schedule q hq h75 => ⟨?_, ?_⟩⟩
  · exact mem_check_violations hq
      (seg_violations_14 (by rw [h75]; norm_num [MAX_DUTY_HOURS]))
  · exact mem_check_violations hq
      (seg_violations_70 (by rw [h75]; norm_num [MAX_70_HOUR_WINDOW]))

/-- C8: the waypoint resolver fails soft: the embedded geocode_location is a
total function of the lookup outcome, and both a raised lookup error
(modelled as none) and an empty result list return the fixed default
coordinate pair (40.7128, -74.0060) instead of propagating the failure. -/
theorem c8_geocode_fails_soft (lookup : Option (List (ℚ × ℚ)))
    (h : lookup = none ∨ lookup = some []) :
    geocode_location lookup = (40.7128, -74.0060) := by
  rcases h with h | h <;> rw [h] <;> rfl

theorem c8_geocode_fails_soft_witness :
    ((none : Option (List (ℚ × ℚ))) = none
      ∨ (none : Option (List (ℚ × ℚ))) = some [])
    ∧ geocode_location none = (40.7128, -74.0060) :=
  ⟨Or.inl rfl, c8_geocode_fails_soft none (Or.inl rfl)⟩

/-- C4: on entry to a leg, if the carried-in cumulative driving hours have
reached the 8-hour break threshold (evaluated with ≥), exactly one Off Duty
segment of duration BREAK_DURATION = 0.5 hours at the leg starting location
is emitted, and the leg continues with the driving counter reset to zero and
the duty counter increased by the break duration (not reset); the remainder
of the leg emission contains no further Off Duty point. -/
theorem c4_break_check (dist : Location → Location → ℚ)
    (start stop : Location) (distance t cd cdy : ℚ) (stops : List Location)
    (h : BREAK_THRESHOLD ≤ cd) :
    add_driving_segment dist start stop distance t cd cdy stops
      = ⟨start, t, t + BREAK_DURATION, "Off Duty", 0, cd, cdy⟩ ::
          add_driving_rest dist start stop distance (t + BREAK_DURATION) 0
            (cdy + BREAK_DURATION) stops
    ∧ ∀ p ∈ add_driving_rest dist start stop distance (t + BREAK_DURATION) 0
        (cdy + BREAK_DURATION) stops, p.status ≠ "Off Duty" := by
  constructor
  · unfold add_driving_segment
    rw [if_pos h]
  · intro p hp
    rcases add_driving_rest_status dist start stop distance _ _ _ stops p hp
      with h1 | h1 <;> rw [h1] <;> decide

theorem c4_break_check_witness :
    BREAK_THRESHOLD ≤ (9:ℚ)
    ∧ (add_driving_segment exDist ⟨"A", 0, 0⟩ ⟨"B", 0, 0⟩ 55 0 9 9 []
        = ⟨⟨"A", 0, 0⟩, 0, 0 + BREAK_DURATION, "Off Duty", 0, 9, 9⟩ ::
            add_driving_rest exDist ⟨"A", 0, 0⟩ ⟨"B", 0, 0⟩ 55
              (0 + BREAK_DURATION) 0 (9 + BREAK_DURATION) []
        ∧ ∀ p ∈ add_driving_rest exDist ⟨"A", 0, 0⟩ ⟨"B", 0, 0⟩ 55
            (0 + BREAK_DURATION) 0 (9 + BREAK_DURATION) [],
            p.status ≠ "Off Duty") :=
  ⟨by norm_num [BREAK_THRESHOLD],
    c4_break_check exDist ⟨"A", 0, 0⟩ ⟨"B", 0, 0⟩ 55 0 9 9 []
      (by norm_num [BREAK_THRESHOLD])⟩

/-- C3: after the dropoff handling segment, if cumulative driving hours ≥ 11
or cumulative duty hours ≥ 14 (both thresholds evaluated with ≥ on the
counters as updated after leg 2 plus the dropoff hour), exactly one Off Duty
rest segment of 10 hours at the dropoff location, carrying zeroed counters in
its own emitted fields, is appended after the otherwise unchanged schedule;
if neither threshold is reached, nothing is appended. -/
theorem c3_mandatory_rest (dist : Location → Location → ℚ)
    (current pickup dropoff : Location)
    (distance_to_pickup distance_pickup_to_dropoff : ℚ)
    (fueling_stops : List Location) (now current_cycle_used : ℚ) :
    ((MAX_DRIVING_HOURS ≤ current_cycle_used
          + calculate_drive_time distance_to_pickup
          + calculate_drive_time distance_pickup_to_dropoff
        ∨ MAX_DUTY_HOURS ≤ current_cycle_used
          + calculate_drive_time distance_to_pickup + PICKUP_TIME
          + calculate_drive_time distance_pickup_to_dropoff + DROPOFF_TIME) →
      generate_duty_schedule dist current pickup dropoff distance_to_pickup
          distance_pickup_to_dropoff fueling_stops now current_cycle_used
        = duty_schedule_base dist current pickup dropoff distance_to_pickup
            distance_pickup_to_dropoff fueling_stops now current_cycle_used
          ++ [⟨dropoff,
                now + calculate_drive_time distance_to_pickup + PICKUP_TIME
                  + calculate_drive_time distance_pickup_to_dropoff + DROPOFF_TIME,
                now + calculate_drive_time distance_to_pickup + PICKUP_TIME
                  + calculate_drive_time distance_pickup_to_dropoff + DROPOFF_TIME
                  + MIN_OFF_DUTY_HOURS,
                "Off Duty", distance_to_pickup + distance_pickup_to_dropoff,
                0, 0⟩])
    ∧ (¬ (MAX_DRIVING_HOURS ≤ current_cycle_used
          + calculate_drive_time distance_to_pickup
          + calculate_drive_time distance_pickup_to_dropoff
        ∨ MAX_DUTY_HOURS ≤ current_cycle_used
          + calculate_drive_time distance_to_pickup + PICKUP_TIME
          + calculate_drive_time distance_pickup_to_dropoff + DROPOFF_TIME) →
      generate_duty_schedule dist current pickup dropoff distance_to_pickup
          distance_pickup_to_dropoff fueling_stops now current_cycle_used
        = duty_schedule_base dist current pickup dropoff distance_to_pickup
            distance_pickup_to_dropoff fueling_stops now current_cycle_used) := by
  constructor
  · intro h
    simp only [generate_duty_schedule]
    rw [if_pos h]
  · intro h
    simp only [generate_duty_schedule]
    rw [if_neg h]

/-- Every member of a generated schedule is the initial point, a leg-1 point,
the pickup point, a leg-2 point, the dropoff point, or the mandatory rest
point. -/
theorem generate_duty_schedule_cases (dist : Location → Location → ℚ)
    (cur pk dr : Location) (d1 d2 : ℚ) (stops : List Location)
    (now cycle : ℚ) (p : RoutePoint)
    (hp : p ∈ generate_duty_schedule dist cur pk dr d1 d2 stops now cycle) :
    p = ⟨cur, now, now, "Off Duty", 0, cycle, cycle⟩
    ∨ p ∈ add_driving_segment dist cur pk d1 now cycle cycle stops
    ∨ p = ⟨pk, now + calculate_drive_time d1,
        now + calculate_drive_time d1 + PICKUP_TIME, "On Duty", d1,
        cycle + calculate_drive_time d1,
        cycle + calculate_drive_time d1 + PICKUP_TIME⟩
    ∨ p ∈ add_driving_segment dist pk dr d2
        (now + calculate_drive_time d1 + PICKUP_TIME
          + calculate_drive_time d2 + DROPOFF_TIME)
        (cycle + calculate_drive_time d1)
        (cycle + calculate_drive_time d1 + PICKUP_TIME) []
    ∨ p = ⟨dr, now + calculate_drive_time d1 + PICKUP_TIME
          + calculate_drive_time d2,
        now + calculate_drive_time d1 + PICKUP_TIME
          + calculate_drive_time d2 + DROPOFF_TIME, "On Duty", d1 + d2,
        cycle + calculate_drive_time d1 + calculate_drive_time d2,
        cycle + calculate_drive_time d1 + PICKUP_TIME
          + calculate_drive_time d2 + DROPOFF_TIME⟩
    ∨ p = ⟨dr, now + calculate_drive_time d1 + PICKUP_TIME
          + calculate_drive_time d2 + DROPOFF_TIME,
        now + calculate_drive_time d1 + PICKUP_TIME
          + calculate_drive_time d2 + DROPOFF_TIME + MIN_OFF_DUTY_HOURS,
        "Off Duty", d1 + d2, 0, 0⟩ := by
  simp only [generate_duty_schedule, duty_schedule_base] at hp
  split at hp <;>
    simp only [List.cons_append, List.append_assoc, List.mem_cons,
      List.mem_append, List.mem_singleton] at hp <;>
    tauto

theorem status_not_sleeper {s : String}
    (h : s = "Off Duty" ∨ s = "On Duty" ∨ s = "Driving") : s ≠ "Sleeper" := by
  rcases h with h | h | h <;> rw [h] <;> decide

/-- C10: every segment of every generated schedule carries one of the three
statuses Off Duty, On Duty, Driving; in particular no segment ever carries
the declared fourth status Sleeper. -/
theorem c10_no_sleeper_status (dist : Location → Location → ℚ)
    (geo : String → ℚ × ℚ) (cl pl dl : String) (cycle now : ℚ) :
    List.Forall (fun p : RoutePoint =>
        (p.status = "Off Duty" ∨ p.status = "On Duty" ∨ p.status = "Driving")
        ∧ p.status ≠ "Sleeper")
      (calculate_route dist geo cl pl dl cycle now).duty_schedule := by
  rw [List.forall_iff_forall_mem]
  intro p hp
  have hp' : p ∈ generate_duty_schedule dist (parse_location geo cl)
      (parse_location geo pl) (parse_location geo dl)
      (dist (parse_location geo cl) (parse_location geo pl))
      (dist (parse_location geo pl) (parse_location geo dl))
      (calculate_fueling_stops dist (parse_location geo cl)
        (parse_location geo pl) (parse_location geo dl)) now cycle := hp
  have hstat : p.status = "Off Duty" ∨ p.status = "On Duty"
      ∨ p.status = "Driving" := by
    rcases generate_duty_schedule_cases dist _ _ _ _ _ _ now cycle p hp'
      with h | h | h | h | h | h
    · rw [h]
      exact Or.inl rfl
    · exact add_driving_segment_status dist _ _ _ _ _ _ _ p h
    · rw [h]
      exact Or.inr (Or.inl rfl)
    · exact add_driving_segment_status dist _ _ _ _ _ _ _ p h
    · rw [h]
      exact Or.inr (Or.inl rfl)
    · rw [h]
      exact Or.inl rfl
  exact ⟨hstat, status_not_sleeper hstat⟩

/-- C9: with a nonnegative starting cycle, every segment of the returned
schedule has cumulative driving hours at most cumulative duty hours: both
counters are seeded equal, driving increments feed both, and only the duty
counter additionally receives break, fuel-dwell and handling time. -/
theorem c9_driving_le_duty (dist : Location → Location → ℚ)
    (geo : String → ℚ × ℚ) (cl pl dl : String) (cycle now : ℚ)
    (hcy : 0 ≤ cycle) :
    List.Forall (fun p : RoutePoint =>
        p.cumulative_driving_hours ≤ p.cumulative_duty_hours)
      (calculate_route dist geo cl pl dl cycle now).duty_schedule := by
  rw [List.forall_iff_forall_mem]
  intro p hp
  have hp' : p ∈ generate_duty_schedule dist (parse_location geo cl)
      (parse_location geo pl) (parse_location geo dl)
      (dist (parse_location geo cl) (parse_location geo pl))
      (dist (parse_location geo pl) (parse_location geo dl))
      (calculate_fueling_stops dist (parse_location geo cl)
        (parse_location geo pl) (parse_location geo dl)) now cycle := hp
  rcases generate_duty_schedule_cases dist _ _ _ _ _ _ now cycle p hp'
    with h | h | h | h | h | h
  · rw [h]
  · exact add_driving_segment_le dist _ _ _ _ _ _ _ (le_refl cycle) p h
  · rw [h]
    show cycle + calculate_drive_time _ ≤ cycle + calculate_drive_time _ + PICKUP_TIME
    unfold PICKUP_TIME
    linarith
  · refine add_driving_segment_le dist _ _ _ _ _ _ _ ?_ p h
    unfold PICKUP_TIME
    linarith
  · rw [h]
    show cycle + calculate_drive_time _ + calculate_drive_time _
      ≤ cycle + calculate_drive_time _ + PICKUP_TIME + calculate_drive_time _
        + DROPOFF_TIME
    unfold PICKUP_TIME DROPOFF_TIME
    linarith
  · rw [h]

theorem c9_driving_le_duty_witness :
    (0:ℚ) ≤ 0
    ∧ List.Forall (fun p : RoutePoint =>
        p.cumulative_driving_hours ≤ p.cumulative_duty_hours)
      (calculate_route exDist exGeo "A" "B" "C" 0 0).duty_schedule :=
  ⟨le_refl 0, c9_driving_le_duty exDist exGeo "A" "B" "C" 0 0 (le_refl 0)⟩

/-- C2: the fuel-stop list computed for the whole trip is threaded only into
the scheduling of leg 1; leg 2 is scheduled with an empty fuel-stop list, and
an add_driving_segment call with an empty fuel-stop list never emits an
On Duty point, whatever the leg distance — so no fuel-stop segment appears
between the pickup handling point and the dropoff handling point. -/
theorem c2_leg2_without_fuel_stops (dist : Location → Location → ℚ)
    (geo : String → ℚ × ℚ) (cl pl dl : String) (cycle now : ℚ) :
    (∃ post : List RoutePoint,
      (calculate_route dist geo cl pl dl cycle now).duty_schedule
        = (⟨parse_location geo cl, now, now, "Off Duty", 0, cycle, cycle⟩ ::
            add_driving_segment dist (parse_location geo cl)
              (parse_location geo pl)
              (dist (parse_location geo cl) (parse_location geo pl))
              now cycle cycle
              (calculate_fueling_stops dist (parse_location geo cl)
                (parse_location geo pl) (parse_location geo dl)))
          ++ [⟨parse_location geo pl,
                now + calculate_drive_time
                  (dist (parse_location geo cl) (parse_location geo pl)),
                now + calculate_drive_time
                  (dist (parse_location geo cl) (parse_location geo pl))
                  + PICKUP_TIME, "On Duty",
                dist (parse_location geo cl) (parse_location geo pl),
                cycle + calculate_drive_time
                  (dist (parse_location geo cl) (parse_location geo pl)),
                cycle + calculate_drive_time
                  (dist (parse_location geo cl) (parse_location geo pl))
                  + PICKUP_TIME⟩]
          ++ add_driving_segment dist (parse_location geo pl)
              (parse_location geo dl)
              (dist (parse_location geo pl) (parse_location geo dl))
              (now + calculate_drive_time
                  (dist (parse_location geo cl) (parse_location geo pl))
                + PICKUP_TIME
                + calculate_drive_time
                  (dist (parse_location geo pl) (parse_location geo dl))
                + DROPOFF_TIME)
              (cycle + calculate_drive_time
                  (dist (parse_location geo cl) (parse_location geo pl)))
              (cycle + calculate_drive_time
                  (dist (parse_location geo cl) (parse_location geo pl))
                + PICKUP_TIME) []
          ++ [⟨parse_location geo dl,
                now + calculate_drive_time
                  (dist (parse_location geo cl) (parse_location geo pl))
                  + PICKUP_TIME
                  + calculate_drive_time
                    (dist (parse_location geo pl) (parse_location geo dl)),
                now + calculate_drive_time
                  (dist (parse_location geo cl) (parse_location geo pl))
                  + PICKUP_TIME
                  + calculate_drive_time
                    (dist (parse_location geo pl) (parse_location geo dl))
                  + DROPOFF_TIME, "On Duty",
                dist (parse_location geo cl) (parse_location geo pl)
                  + dist (parse_location geo pl) (parse_location geo dl),
                cycle + calculate_drive_time
                  (dist (parse_location geo cl) (parse_location geo pl))
                  + calculate_drive_time
                    (dist (parse_location geo pl) (parse_location geo dl)),
                cycle + calculate_drive_time
                  (dist (parse_location geo cl) (parse_location geo pl))
                  + PICKUP_TIME
                  + calculate_drive_time
                    (dist (parse_location geo pl) (parse_location geo dl))
                  + DROPOFF_TIME⟩]
          ++ post)
    ∧ ∀ (d t cd cdy : ℚ),
        ∀ p ∈ add_driving_segment dist (parse_location geo pl)
            (parse_location geo dl) d t cd cdy [],
          p.status ≠ "On Duty" := by
  constructor
  · have hbase : ∃ post : List RoutePoint,
        generate_duty_schedule dist (parse_location geo cl)
            (parse_location geo pl) (parse_location geo dl)
            (dist (parse_location geo cl) (parse_location geo pl))
            (dist (parse_location geo pl) (parse_location geo dl))
            (calculate_fueling_stops dist (parse_location geo cl)
              (parse_location geo pl) (parse_location geo dl)) now cycle
          = duty_schedule_base dist (parse_location geo cl)
              (parse_location geo pl) (parse_location geo dl)
              (dist (parse_location geo cl) (parse_location geo pl))
              (dist (parse_location geo pl) (parse_location geo dl))
              (calculate_fueling_stops dist (parse_location geo cl)
                (parse_location geo pl) (parse_location geo dl)) now cycle
            ++ post := by
      simp only [generate_duty_schedule]
      split
      · exact ⟨_, rfl⟩
      · exact ⟨[], by simp⟩
    obtain ⟨post, hpost⟩ := hbase
    refine ⟨post, ?_⟩
    show generate_duty_schedule dist (parse_location geo cl)
        (parse_location geo pl) (parse_location geo dl)
        (dist (parse_location geo cl) (parse_location geo pl))
        (dist (parse_location geo pl) (parse_location geo dl))
        (calculate_fueling_stops dist (parse_location geo cl)
          (parse_location geo pl) (parse_location geo dl)) now cycle = _
    rw [hpost]
    simp only [duty_schedule_base, List.cons_append, List.append_assoc]
  · intro d t cd cdy p hp
    rcases add_driving_segment_nil_status dist _ _ d t cd cdy p hp
      with h1 | h1 <;> rw [h1] <;> decide

/-- When the schedule starts with the carried cycle at or above the break
threshold, the first Driving point of the generated schedule is the terminal
point of leg 1: its duty counter is the cycle plus the break duration plus
the leg-1 drive time plus half an hour per fuel point. -/
theorem generate_find_first_driving (dist : Location → Location → ℚ)
    (cur pk dr : Location) (d1 d2 : ℚ) (stops : List Location)
    (now cycle : ℚ) (h8 : BREAK_THRESHOLD ≤ cycle) :
    ∃ (n : ℕ) (T : ℚ),
      (generate_duty_schedule dist cur pk dr d1 d2 stops now cycle).find?
          (fun q => q.status == "Driving")
        = some ⟨pk, T, T, "Driving", d1, 0 + d1 / 55,
            cycle + BREAK_DURATION + d1 / 55 + (n : ℚ) / 2⟩
      ∧ ⟨pk, T, T, "Driving", d1, 0 + d1 / 55,
            cycle + BREAK_DURATION + d1 / 55 + (n : ℚ) / 2⟩
          ∈ generate_duty_schedule dist cur pk dr d1 d2 stops now cycle := by
  obtain ⟨new, T, hrest, hst⟩ := add_driving_rest_decomp dist cur pk d1
    (now + BREAK_DURATION) 0 (cycle + BREAK_DURATION) stops
  have hleg1 : add_driving_segment dist cur pk d1 now cycle cycle stops
      = ⟨cur, now, now + BREAK_DURATION, "Off Duty", 0, cycle, cycle⟩ ::
        (new ++ [⟨pk, T, T, "Driving", d1, 0 + d1 / 55,
          cycle + BREAK_DURATION + d1 / 55 + (new.length : ℚ) / 2⟩]) := by
    unfold add_driving_segment
    rw [if_pos h8, hrest]
  have hfindF : (add_driving_segment dist cur pk d1 now cycle cycle stops).find?
      (fun q => q.status == "Driving")
        = some ⟨pk, T, T, "Driving", d1, 0 + d1 / 55,
            cycle + BREAK_DURATION + d1 / 55 + (new.length : ℚ) / 2⟩ := by
    rw [hleg1, List.find?_cons_of_neg _ (by simp), List.find?_append,
      List.find?_eq_none.mpr (fun x hx => by rw [hst x hx]; simp),
      Option.none_or, List.find?_cons_of_pos _ (by simp)]
  refine ⟨new.length, T, ?_, ?_⟩
  · simp only [generate_duty_schedule, duty_schedule_base]
    split <;>
      (simp only [List.cons_append, List.append_assoc]
       rw [List.find?_cons_of_neg _ (by simp), List.find?_append, hfindF,
         Option.or_some])
  · simp only [generate_duty_schedule, duty_schedule_base]
    have hmem : (⟨pk, T, T, "Driving", d1, 0 + d1 / 55,
        cycle + BREAK_DURATION + d1 / 55 + (new.length : ℚ) / 2⟩ : RoutePoint)
        ∈ add_driving_segment dist cur pk d1 now cycle cycle stops := by
      rw [hleg1]
      exact List.mem_cons_of_mem _
        (List.mem_append_right _ (List.mem_singleton.mpr rfl))
    split <;>
      (simp only [List.cons_append, List.append_assoc]
       exact List.mem_cons_of_mem _ (List.mem_append_left _ hmem))

/-- C7: calculate_route seeds both cumulative counters with the caller value
(visible in the first emitted point), and with current_cycle_used = 70 and a
nonzero first leg, the very first Driving segment of the schedule carries a
70-hour/8-day violation in the returned violations list. -/
theorem c7_cycle_seed_and_70h_violation (dist : Location → Location → ℚ)
    (geo : String → ℚ × ℚ) (cl pl dl : String) (now : ℚ)
    (hd1 : 0 < dist (parse_location geo cl) (parse_location geo pl)) :
    (∀ cycle : ℚ,
      (calculate_route dist geo cl pl dl cycle now).duty_schedule.head?
        = some ⟨parse_location geo cl, now, now, "Off Duty", 0, cycle, cycle⟩)
    ∧ ∃ p : RoutePoint,
        (calculate_route dist geo cl pl dl 70 now).duty_schedule.find?
            (fun q => q.status == "Driving") = some p
        ∧ ("Violation: Exceeded 70-hour/8-day limit at " ++ p.location.name)
            ∈ (calculate_route dist geo cl pl dl 70 now).violations := by
  constructor
  · intro cycle
    show (generate_duty_schedule dist (parse_location geo cl)
        (parse_location geo pl) (parse_location geo dl)
        (dist (parse_location geo cl) (parse_location geo pl))
        (dist (parse_location geo pl) (parse_location geo dl))
        (calculate_fueling_stops dist (parse_location geo cl)
          (parse_location geo pl) (parse_location geo dl)) now cycle).head? = _
    simp only [generate_duty_schedule, duty_schedule_base]
    split <;> simp
  · obtain ⟨n, T, hfind, hmem⟩ := generate_find_first_driving dist
      (parse_location geo cl) (parse_location geo pl) (parse_location geo dl)
      (dist (parse_location geo cl) (parse_location geo pl))
      (dist (parse_location geo pl) (parse_location geo dl))
      (calculate_fueling_stops dist (parse_location geo cl)
        (parse_location geo pl) (parse_location geo dl))
      now 70 (by norm_num [BREAK_THRESHOLD])
    refine ⟨_, hfind, ?_⟩
    have hduty : MAX_70_HOUR_WINDOW
        < (⟨parse_location geo pl, T, T, "Driving",
            dist (parse_location geo cl) (parse_location geo pl),
            0 + dist (parse_location geo cl) (parse_location geo pl) / 55,
            70 + BREAK_DURATION
              + dist (parse_location geo cl) (parse_location geo pl) / 55
              + (n : ℚ) / 2⟩ : RoutePoint).cumulative_duty_hours := by
      show MAX_70_HOUR_WINDOW < 70 + BREAK_DURATION
        + dist (parse_location geo cl) (parse_location geo pl) / 55 + (n : ℚ) / 2
      have hpos : 0 < dist (parse_location geo cl) (parse_location geo pl) / 55 :=
        div_pos hd1 (by norm_num)
      have hn : 0 ≤ (n : ℚ) / 2 := by positivity
      unfold MAX_70_HOUR_WINDOW BREAK_DURATION
      linarith
    exact mem_check_violations hmem (seg_violations_70 hduty)

theorem c7_witness :
    0 < exDist (parse_location exGeo "A") (parse_location exGeo "B")
    ∧ ((∀ cycle : ℚ,
        (calculate_route exDist exGeo "A" "B" "C" cycle 0).duty_schedule.head?
          = some ⟨parse_location exGeo "A", 0, 0, "Off Duty", 0, cycle, cycle⟩)
      ∧ ∃ p : RoutePoint,
          (calculate_route exDist exGeo "A" "B" "C" 70 0).duty_schedule.find?
              (fun q => q.status == "Driving") = some p
          ∧ ("Violation: Exceeded 70-hour/8-day limit at " ++ p.location.name)
              ∈ (calculate_route exDist exGeo "A" "B" "C" 70 0).violations) :=
  ⟨by norm_num [exDist],
    c7_cycle_seed_and_70h_violation exDist exGeo "A" "B" "C" 0
      (by norm_num [exDist])⟩

/-- C1 fails on the code: with a 110-mile first leg and a 55-mile second leg
(and zero starting cycle), the generated five-point schedule has its dropoff
point (index 4) arriving strictly before the leg-2 driving point (index 3)
departs, and the leg-2 driving point stores a miles_from_start (55, the leg-2
distance) strictly below that of the pickup point (110) — both the timestamp
monotonicity and the miles monotonicity of the claim are violated. -/
theorem c1_timeline_not_monotone :
    (calculate_route exDist2 exGeo "A" "B" "C" 0 0).duty_schedule.length = 5
    ∧ ((calculate_route exDist2 exGeo "A" "B" "C" 0 0).duty_schedule.getD 4
        default).arrival_time
      < ((calculate_route exDist2 exGeo "A" "B" "C" 0 0).duty_schedule.getD 3
        default).departure_time
    ∧ ((calculate_route exDist2 exGeo "A" "B" "C" 0 0).duty_schedule.getD 3
        default).miles_from_start
      < ((calculate_route exDist2 exGeo "A" "B" "C" 0 0).duty_schedule.getD 2
        default).miles_from_start := by
  have h1 : (⌈(110:ℚ)/1000⌉ : ℤ) = 1 := by
    rw [Int.ceil_eq_iff] <;> norm_num
  have h2 : (⌈(11:ℚ)/100⌉ : ℤ) = 1 := by
    rw [Int.ceil_eq_iff] <;> norm_num
  have h3 : (⌈(55:ℚ)/1000⌉ : ℤ) = 1 := by
    rw [Int.ceil_eq_iff] <;> norm_num
  have h4 : (⌈(11:ℚ)/200⌉ : ℤ) = 1 := by
    rw [Int.ceil_eq_iff] <;> norm_num
  have hBA : ¬ (("B":String) = "A") := by decide
  norm_num [calculate_route, if_neg hBA, generate_duty_schedule, duty_schedule_base,
    add_driving_segment, add_driving_rest, add_driving_loop,
    calculate_fueling_stops, fueling_loop, fuel_bound, calculate_drive_time,
    parse_location, exDist2, exGeo, h1, h2, h3, h4,
    BREAK_THRESHOLD, BREAK_DURATION, PICKUP_TIME, DROPOFF_TIME,
    MAX_DRIVING_HOURS, MAX_DUTY_HOURS, MIN_OFF_DUTY_HOURS, FUELING_INTERVAL,
    MAX_70_HOUR_WINDOW]

end HosLogic
